import Mathlib

/-!
Verification of the fallback-block validation-and-application pipeline
(`src/libNode/FallbackBlockProcessing.cpp`) against its specification.

The C++ code is shallowly embedded: shard members are records of the tuple
fields actually read by the code, the external collaborators (message codec,
hash functions, multi-signature primitives, block storage, timestamp
verifier, configuration constants) are oracle fields of an environment
record, and the two functions under study —
`Node::VerifyFallbackBlockCoSignature` and `Node::ProcessFallbackBlock` —
become pure functions over that environment plus an explicit node state.
`ProcessFallbackBlock` additionally emits a trace of the validation stages
it evaluates, each annotated with the set of shared locks held by the
validating thread at that point, mirroring the `lock_guard` scopes of the
source.
-/

namespace Zilliqa

/-- One entry of a shard: the C++ code reads the `SHARD_NODE_PUBKEY` and
`SHARD_NODE_PEER` components of the member tuple; the remaining component is
carried along but never read by this fragment. -/
structure ShardMember where
  pubkey : Nat
  peer : Nat
  reserved : Nat
deriving DecidableEq, Repr

/-- Fields of `FallbackBlockHeader` that this fragment reads. -/
structure FallbackBlockHeader where
  version : Nat
  shardId : Nat
  leaderPubKey : Nat
  leaderNetworkInfo : Nat
  leaderConsensusId : Nat
  fallbackDSEpochNo : Nat
  fallbackEpochNo : Nat
  stateRootHash : Nat
  committeeHash : Nat
  timestamp : Nat
deriving DecidableEq, Repr

/-- A fallback block: header, carried hash, and the co-signature material
(two participation bitmaps and two signatures). -/
structure FallbackBlock where
  header : FallbackBlockHeader
  blockHash : Nat
  CS1 : Nat
  CS2 : Nat
  B1 : List Bool
  B2 : List Bool
deriving DecidableEq, Repr

/-- External cryptographic / serialization collaborators used by
`Node::VerifyFallbackBlockCoSignature` (all live outside this fragment):
`ConsensusCommon::NumForConsensus`, `MultiSig::AggregatePubKeys`,
`FallbackBlockHeader::Serialize`, `Signature::Serialize`,
`BitVector::SetBitVector`, and `MultiSig::MultiSigVerify`. -/
structure CryptoEnv where
  numForConsensus : Nat → Nat
  aggregatePubKeys : List Nat → Option Nat
  serializeHeader : FallbackBlockHeader → Option (List Nat)
  serializeSig : Nat → List Nat
  setBitVector : List Bool → List Nat
  multiSigVerify : List Nat → Nat → Nat → Bool
deriving Inhabited

/-- The key-selection loop of `VerifyFallbackBlockCoSignature`: walk the
shard members and the bitmap `B2` in lockstep, keeping the public key of
every member whose bit is set.  (The C++ loop also maintains `count`, which
equals the length of the collected list.) -/
def collectKeys : List ShardMember → List Bool → List Nat
  | [], _ => []
  | _, [] => []
  | m :: ms, b :: bs =>
    if b then m.pubkey :: collectKeys ms bs else collectKeys ms bs

/-- Embedding of `Node::VerifyFallbackBlockCoSignature`
(`FallbackBlockProcessing.cpp`, lines 57-115): bitmap-length check, key
selection, signer-count check against `NumForConsensus`, public-key
aggregation, construction of the verification message (serialized header,
then serialized `CS1`, then the bit-vector encoding of `B1`), and the final
aggregate-signature verification of `CS2`. -/
def VerifyFallbackBlockCoSignature (env : CryptoEnv)
    (shards : List (List ShardMember)) (fb : FallbackBlock) : Bool :=
  if (shards.getD fb.header.shardId []).length ≠ fb.B2.length then false
  else if (collectKeys (shards.getD fb.header.shardId []) fb.B2).length
      ≠ env.numForConsensus fb.B2.length then false
  else
    match env.aggregatePubKeys
        (collectKeys (shards.getD fb.header.shardId []) fb.B2) with
    | none => false
    | some aggregatedKey =>
      match env.serializeHeader fb.header with
      | none => false
      | some headerBytes =>
        env.multiSigVerify
          (headerBytes ++ env.serializeSig fb.CS1 ++ env.setBitVector fb.B1)
          fb.CS2 aggregatedKey

/-- C5: if the bitmap `B2` has a length different from the shard size, the
co-signature verifier rejects — for every choice of the cryptographic
oracles and every bit content, i.e. before any key selection, aggregation
or signature verification could influence the result. -/
theorem C5_bitmap_length_mismatch_rejects (env : CryptoEnv)
    (shards : List (List ShardMember)) (fb : FallbackBlock)
    (hlen : (shards.getD fb.header.shardId []).length ≠ fb.B2.length) :
    VerifyFallbackBlockCoSignature env shards fb = false := by
  unfold VerifyFallbackBlockCoSignature
  rw [if_pos hlen]

/-- C4: once the bitmap length and signer count pass and key aggregation
and header serialization succeed, the verifier's result is exactly
`MultiSigVerify` applied to the byte string (serialized header ++ serialized
`CS1` ++ bit-vector encoding of `B1`), the signature `CS2`, and the key
aggregated from the `B2`-selected public keys. -/
theorem C4_canonical_message_layout (env : CryptoEnv)
    (shards : List (List ShardMember)) (fb : FallbackBlock)
    (k : Nat) (hb : List Nat)
    (hlen : (shards.getD fb.header.shardId []).length = fb.B2.length)
    (hcount : (collectKeys (shards.getD fb.header.shardId []) fb.B2).length
      = env.numForConsensus fb.B2.length)
    (hagg : env.aggregatePubKeys
      (collectKeys (shards.getD fb.header.shardId []) fb.B2) = some k)
    (hhdr : env.serializeHeader fb.header = some hb) :
    VerifyFallbackBlockCoSignature env shards fb =
      env.multiSigVerify
        (hb ++ env.serializeSig fb.CS1 ++ env.setBitVector fb.B1)
        fb.CS2 k := by
  unfold VerifyFallbackBlockCoSignature
  rw [if_neg (fun h => h hlen), if_neg (fun h => h hcount), hagg, hhdr]

/-- C1 amended: when every downstream cryptographic step succeeds (key
aggregation always returns a key, header serialization succeeds, and
signature verification accepts), the verifier accepts exactly when the
number of set bits of `B2` EQUALS `NumForConsensus(len(B2))`; a strictly
larger signer count is rejected as well, because the code compares the
count for inequality rather than for being below the threshold. -/
theorem C1_count_equality_gate (env : CryptoEnv)
    (shards : List (List ShardMember)) (fb : FallbackBlock)
    (hlen : (shards.getD fb.header.shardId []).length = fb.B2.length)
    (hagg : ∀ ks, (env.aggregatePubKeys ks).isSome = true)
    (hhdr : (env.serializeHeader fb.header).isSome = true)
    (hver : ∀ msg sig key, env.multiSigVerify msg sig key = true) :
    (VerifyFallbackBlockCoSignature env shards fb = true ↔
      (collectKeys (shards.getD fb.header.shardId []) fb.B2).length
        = env.numForConsensus fb.B2.length) := by
  unfold VerifyFallbackBlockCoSignature
  rw [if_neg (fun h => h hlen)]
  by_cases hc : (collectKeys (shards.getD fb.header.shardId []) fb.B2).length
      = env.numForConsensus fb.B2.length
  · rw [if_neg (fun h => h hc)]
    rcases hk : env.aggregatePubKeys
        (collectKeys (shards.getD fb.header.shardId []) fb.B2) with _ | k
    · have h2 := hagg (collectKeys (shards.getD fb.header.shardId []) fb.B2)
      rw [hk] at h2
      simp at h2
    · rcases hh : env.serializeHeader fb.header with _ | hbytes
      · rw [hh] at hhdr
        simp at hhdr
      · exact ⟨fun _ => hc, fun _ => hver _ _ _⟩
  · rw [if_pos hc]
    exact iff_of_false (by simp) hc

/-- Concrete shard used in the co-signature counterexamples and witnesses:
two members, public keys 1 and 2, peers 1 and 2. -/
def shardTwo : List ShardMember :=
  [⟨1, 1, 0⟩, ⟨2, 2, 0⟩]

/-- Concrete fallback block referencing shard 0 with both `B2` bits set. -/
def fbTwo : FallbackBlock :=
  { header :=
      { version := 1, shardId := 0, leaderPubKey := 1, leaderNetworkInfo := 1,
        leaderConsensusId := 0, fallbackDSEpochNo := 5, fallbackEpochNo := 7,
        stateRootHash := 9, committeeHash := 4, timestamp := 100 }
    blockHash := 42, CS1 := 11, CS2 := 12,
    B1 := [true, false], B2 := [true, true] }

/-- Cryptographic oracle set whose downstream steps always succeed and whose
quorum threshold for a 2-member shard is 1. -/
def cryptoThresholdOne : CryptoEnv :=
  { numForConsensus := fun _ => 1
    aggregatePubKeys := fun _ => some 7
    serializeHeader := fun _ => some [1, 2]
    serializeSig := fun s => [s]
    setBitVector := fun _ => [3]
    multiSigVerify := fun _ _ _ => true }

/-- C1 counterexample: with threshold 1 and both `B2` bits set, the signer
count 2 is at (indeed above) the threshold and every downstream
cryptographic step succeeds, yet the verifier rejects — refuting the claim
that every count at or above the threshold passes the count stage. -/
theorem C1_counterexample :
    (collectKeys (([shardTwo] : List (List ShardMember)).getD
        fbTwo.header.shardId []) fbTwo.B2).length = 2 ∧
    cryptoThresholdOne.numForConsensus fbTwo.B2.length = 1 ∧
    ([shardTwo].getD fbTwo.header.shardId []).length = fbTwo.B2.length ∧
    (cryptoThresholdOne.aggregatePubKeys [1, 2]).isSome = true ∧
    (cryptoThresholdOne.serializeHeader fbTwo.header).isSome = true ∧
    cryptoThresholdOne.multiSigVerify [1, 2, 11, 3] 12 7 = true ∧
    VerifyFallbackBlockCoSignature cryptoThresholdOne [shardTwo] fbTwo
      = false := by
  decide

/-- Cryptographic oracle set with threshold 2 for the witnesses. -/
def cryptoThresholdTwo : CryptoEnv :=
  { cryptoThresholdOne with numForConsensus := fun _ => 2 }

/-- Witness for `C1_count_equality_gate` at the concrete two-member shard
with threshold 2 and both bits set. -/
theorem C1_count_equality_gate_witness :
    VerifyFallbackBlockCoSignature cryptoThresholdTwo [shardTwo] fbTwo
        = true ↔
      (collectKeys (([shardTwo] : List (List ShardMember)).getD
        fbTwo.header.shardId []) fbTwo.B2).length
        = cryptoThresholdTwo.numForConsensus fbTwo.B2.length :=
  C1_count_equality_gate cryptoThresholdTwo [shardTwo] fbTwo
    (by decide) (fun _ => rfl) (by decide) (fun _ _ _ => rfl)

/-- Cryptographic oracle set whose signature verifier checks the exact
message bytes, signature and key, used to witness the message layout. -/
def cryptoExactMessage : CryptoEnv :=
  { cryptoThresholdTwo with
    multiSigVerify := fun msg sig key =>
      msg == [1, 2, 11, 3] && sig == 12 && key == 7 }

/-- Witness for `C4_canonical_message_layout`: at the concrete block the
verifier equals `MultiSigVerify` on exactly (header bytes ++ `CS1` bytes ++
bit-vector bytes of `B1`). -/
theorem C4_canonical_message_layout_witness :
    VerifyFallbackBlockCoSignature cryptoExactMessage [shardTwo] fbTwo =
      cryptoExactMessage.multiSigVerify
        ([1, 2] ++ cryptoExactMessage.serializeSig fbTwo.CS1
          ++ cryptoExactMessage.setBitVector fbTwo.B1)
        fbTwo.CS2 7 :=
  C4_canonical_message_layout cryptoExactMessage [shardTwo] fbTwo 7 [1, 2]
    (by decide) (by decide) (by decide) (by decide)

/-- Fallback block whose bitmap `B2` is one bit shorter than the shard. -/
def fbShortBitmap : FallbackBlock :=
  { fbTwo with B2 := [true] }

/-- Witness for `C5_bitmap_length_mismatch_rejects` at a concrete block
whose bitmap is shorter than the shard. -/
theorem C5_bitmap_length_mismatch_rejects_witness :
    VerifyFallbackBlockCoSignature cryptoThresholdOne [shardTwo]
      fbShortBitmap = false :=
  C5_bitmap_length_mismatch_rejects cryptoThresholdOne [shardTwo]
    fbShortBitmap (by decide)

/-- The loop body of `Node::UpdateDSCommitteeAfterFallback`
(`FallbackBlockProcessing.cpp`, lines 45-54): starting from the cleared
committee, each shard member matching the leader's (public key, network
address) pair is pushed to the FRONT of the deque, every other member is
pushed to the BACK, keeping only its (public key, peer) fields. -/
def updateDSCommLoop (leaderPubKey leaderNetworkInfo : Nat) :
    List ShardMember → List (Nat × Nat) → List (Nat × Nat)
  | [], dsComm => dsComm
  | shardNode :: rest, dsComm =>
    if shardNode.pubkey = leaderPubKey ∧ shardNode.peer = leaderNetworkInfo then
      updateDSCommLoop leaderPubKey leaderNetworkInfo rest
        ((leaderPubKey, leaderNetworkInfo) :: dsComm)
    else
      updateDSCommLoop leaderPubKey leaderNetworkInfo rest
        (dsComm ++ [(shardNode.pubkey, shardNode.peer)])

/-- Embedding of `Node::UpdateDSCommitteeAfterFallback` (lines 40-55): the
committee is cleared (`dsComm.clear()`, modelled by the empty accumulator)
and rebuilt from the members of shard `shard_id`. -/
def UpdateDSCommitteeAfterFallback (shard_id : Nat)
    (leaderPubKey leaderNetworkInfo : Nat)
    (shards : List (List ShardMember)) : List (Nat × Nat) :=
  updateDSCommLoop leaderPubKey leaderNetworkInfo
    (shards.getD shard_id []) []

/-- Number of shard members carrying the leader's (public key, network
address) pair; "the shard contains the pair" means this count is positive. -/
def leaderCount (k a : Nat) : List ShardMember → Nat
  | [] => 0
  | m :: ms =>
    (if m.pubkey = k ∧ m.peer = a then 1 else 0) + leaderCount k a ms

/-- The claim's "all other shard members in their original shard order,
each reduced to only (public key, network address)": members not carrying
the leader pair, in order, projected. -/
def othersProj (k a : Nat) : List ShardMember → List (Nat × Nat)
  | [] => []
  | m :: ms =>
    if m.pubkey = k ∧ m.peer = a then othersProj k a ms
    else (m.pubkey, m.peer) :: othersProj k a ms

/-- If no member of `ms` matches the leader pair, the loop appends all of
them, projected to (public key, peer), behind the accumulator. -/
theorem updateDSCommLoop_no_match (k a : Nat) (ms : List ShardMember)
    (acc : List (Nat × Nat)) (h : leaderCount k a ms = 0) :
    updateDSCommLoop k a ms acc =
      acc ++ ms.map (fun m => (m.pubkey, m.peer)) := by
  induction ms generalizing acc with
  | nil => simp [updateDSCommLoop]
  | cons m ms ih =>
    rw [leaderCount] at h
    by_cases hm : m.pubkey = k ∧ m.peer = a
    · rw [if_pos hm] at h
      omega
    · rw [if_neg hm] at h
      rw [updateDSCommLoop, if_neg hm, ih _ (by omega)]
      simp

/-- With no matching member, `othersProj` is just the projection. -/
theorem othersProj_of_no_match (k a : Nat) (ms : List ShardMember)
    (h : leaderCount k a ms = 0) :
    othersProj k a ms = ms.map (fun m => (m.pubkey, m.peer)) := by
  induction ms with
  | nil => simp [othersProj]
  | cons m ms ih =>
    rw [leaderCount] at h
    by_cases hm : m.pubkey = k ∧ m.peer = a
    · rw [if_pos hm] at h
      omega
    · rw [if_neg hm] at h
      rw [othersProj, if_neg hm, ih (by omega)]
      simp

/-- If the leader pair matches exactly one member of `ms`, the loop yields
the leader pair in front of the accumulator followed by the projections of
the non-matching members, in order. -/
theorem updateDSCommLoop_single_match (k a : Nat) (ms : List ShardMember)
    (acc : List (Nat × Nat)) (hone : leaderCount k a ms = 1) :
    updateDSCommLoop k a ms acc =
      (k, a) :: (acc ++ othersProj k a ms) := by
  induction ms generalizing acc with
  | nil => simp [leaderCount] at hone
  | cons m ms ih =>
    rw [leaderCount] at hone
    by_cases hm : m.pubkey = k ∧ m.peer = a
    · rw [if_pos hm] at hone
      have hrest : leaderCount k a ms = 0 := by omega
      rw [updateDSCommLoop, if_pos hm,
        updateDSCommLoop_no_match k a ms _ hrest, othersProj, if_pos hm,
        othersProj_of_no_match k a ms hrest]
      simp
    · rw [if_neg hm] at hone
      rw [updateDSCommLoop, if_neg hm, ih _ (by omega), othersProj,
        if_neg hm]
      simp

/-- C3 counterexample: the shard `[(1,1), (2,2), (1,1)]` contains the
leader pair (1,1), yet the rebuilt committee is `[(1,1), (1,1), (2,2)]`:
its tail is not the other shard members in their original shard order,
because the second matching entry is also pushed to the front. -/
theorem C3_counterexample :
    leaderCount 1 1 [⟨1, 1, 0⟩, ⟨2, 2, 0⟩, ⟨1, 1, 0⟩] ≥ 1 ∧
    UpdateDSCommitteeAfterFallback 0 1 1
        [[⟨1, 1, 0⟩, ⟨2, 2, 0⟩, ⟨1, 1, 0⟩]]
      = [(1, 1), (1, 1), (2, 2)] ∧
    UpdateDSCommitteeAfterFallback 0 1 1
        [[⟨1, 1, 0⟩, ⟨2, 2, 0⟩, ⟨1, 1, 0⟩]]
      ≠ (1, 1) :: othersProj 1 1 [⟨1, 1, 0⟩, ⟨2, 2, 0⟩, ⟨1, 1, 0⟩] := by
  decide

/-- C3 amended: whenever exactly one member of the shard carries the
leader's (public key, network address) pair, the new committee is exactly
that pair followed by all other shard members in their original shard
order, each reduced to (public key, network address). -/
theorem C3_succession_single_leader (shard_id k a : Nat)
    (shards : List (List ShardMember))
    (hone : leaderCount k a (shards.getD shard_id []) = 1) :
    UpdateDSCommitteeAfterFallback shard_id k a shards =
      (k, a) :: othersProj k a (shards.getD shard_id []) := by
  unfold UpdateDSCommitteeAfterFallback
  rw [updateDSCommLoop_single_match k a _ _ hone]
  simp

/-- Witness for `C3_succession_single_leader` on the spec's example shape:
shard `[a, b, leader, c]` with the leader in the middle becomes
`[leader, a, b, c]`. -/
theorem C3_succession_single_leader_witness :
    UpdateDSCommitteeAfterFallback 0 3 3
        [[⟨1, 1, 0⟩, ⟨2, 2, 0⟩, ⟨3, 3, 0⟩, ⟨4, 4, 0⟩]] =
      (3, 3) :: othersProj 3 3
        [⟨1, 1, 0⟩, ⟨2, 2, 0⟩, ⟨3, 3, 0⟩, ⟨4, 4, 0⟩] :=
  C3_succession_single_leader 0 3 3
    [[⟨1, 1, 0⟩, ⟨2, 2, 0⟩, ⟨3, 3, 0⟩, ⟨4, 4, 0⟩]] (by decide)

/-- The validation stages of `Node::ProcessFallbackBlock`, in source order. -/
inductive Stage
  | ready | decode | version | freshness | hashIntegrity | timestamp
  | shardExist | committeeHash | leaderId | stateRoot | cosig | commit
deriving DecidableEq, Repr

/-- The shared locks this fragment can hold: `m_mediator.m_ds->m_mutexShards`
(the shard-table lock) and `m_mediator.m_mutexDSCommittee`. -/
inductive LockId
  | shardsLock | dsCommitteeLock
deriving DecidableEq, Repr

/-- Block-type tags of the BlockLink chain; this fragment uses
`BlockType::FB`. -/
inductive BlockType
  | DS | VC | FB | TX
deriving DecidableEq, Repr

/-- Modelled from the spec: one record of the append-only BlockLink chain —
(index, epoch number, block-type tag, block hash).  The chain class itself
(`BlockLinkChain::GetLatestIndex` / `AddBlockLink`) is outside the given
sources; per spec section 4.3, `AddBlockLink` appends one record and
`GetLatestIndex` returns the latest appended index. -/
structure BlockLink where
  index : Nat
  epochNo : Nat
  btype : BlockType
  bhash : Nat
deriving DecidableEq, Repr

/-- The shared and node-local mutable state touched by
`Node::ProcessFallbackBlock`: the BlockLink chain (entries plus latest
index), the DS committee, block storage (keyed puts), the fallback timer
pulse, the scheduled background disk flush, sent broadcasts (message and
cluster size), and the per-epoch buffers and counters cleaned after
commit. -/
structure NodeState where
  blocklinks : List BlockLink
  latestIndex : Nat
  dsCommittee : List (Nat × Nat)
  storage : List (Nat × List Nat)
  fallbackTimerPulsed : Bool
  diskFlushScheduled : Bool
  broadcasts : List (List Nat × Nat)
  processedTransactions : List Nat
  createdTransactions : List Nat
  microblockConsensusBuffer : List Nat
  accountTempCleared : Bool
  powStarted : Bool
  consensusID : Nat
  consensusLeaderID : Nat
deriving DecidableEq, Repr

/-- The external collaborators and configuration constants consulted by
`Node::ProcessFallbackBlock`: node readiness (the `CheckState` /
condition-variable wait outcome), the message codec, the protocol version,
`Mediator::CheckWhetherBlockIsLatest`, `FallbackBlockHeader::GetMyHash`,
`VerifyTimestamp`, the shard table, `Messenger::GetShardHash`, the account
store's state root, the cryptographic oracles, serialization and storage of
the block with its sharding structure, node mode flags, the broadcast
re-encoder, and the broadcast cluster-size constants. -/
structure ProcEnv where
  checkStateOK : Bool
  decode : Option FallbackBlock
  fallbackBlockVersion : Nat
  isLatest : Nat → Nat → Bool
  myHash : FallbackBlockHeader → Nat
  verifyTimestamp : Nat → Nat → Bool
  consensusObjectTimeout : Nat
  fallbackIntervalWaiting : Nat
  fallbackCheckInterval : Nat
  fallbackExtraTime : Nat
  shards : List (List ShardMember)
  shardHash : List ShardMember → Option Nat
  stateRootHash : Nat
  crypto : CryptoEnv
  serializeFBWithShards : FallbackBlock → List (List ShardMember) → Option (List Nat)
  putFallbackBlock : Nat → List Nat → Bool
  lookupNodeMode : Bool
  broadcastTreebasedClusterMode : Bool
  setNodeFallbackBlock : FallbackBlock → Option (List Nat)
  messageTypeNode : Nat
  instructionFallbackBlock : Nat
  currentEpochNum : Nat
  numForwardedBlockReceiversPerShard : Nat
  numDSElection : Nat

/-- Embedding of `Node::SendFallbackBlockToOtherShardNodes` (lines 347-364):
the cluster size starts as `NUM_FORWARDED_BLOCK_RECEIVERS_PER_SHARD` and is
replaced by `NUM_DS_ELECTION + 1` when it does not exceed
`NUM_DS_ELECTION`.  Both quantities live in C++ `unsigned int` variables,
so all arithmetic is modulo 2^32 (= 4294967296). -/
def fallbackClusterSize
    (numForwardedBlockReceiversPerShard numDSElection : Nat) : Nat :=
  if numForwardedBlockReceiversPerShard % 4294967296
      ≤ numDSElection % 4294967296 then
    (numDSElection % 4294967296 + 1) % 4294967296
  else
    numForwardedBlockReceiversPerShard % 4294967296

/-- The tail of the commit step after the storage decision (lines 283-344):
pulse the fallback timer, replace the DS committee (under the DS-committee
lock), schedule the detached state-to-disk flush, and then — outside the
shard lock — either broadcast plus clean the per-epoch buffers and re-enter
proof-of-work (non-lookup node), or reset the consensus counters (lookup
node). -/
def fallbackPostStore (env : ProcEnv) (st : NodeState)
    (fb : FallbackBlock) : NodeState :=
  let st2 : NodeState := { st with
    fallbackTimerPulsed := true
    dsCommittee := UpdateDSCommitteeAfterFallback fb.header.shardId
      fb.header.leaderPubKey fb.header.leaderNetworkInfo env.shards
    diskFlushScheduled := true }
  if env.lookupNodeMode = false then
    let st3 : NodeState :=
      if env.broadcastTreebasedClusterMode = true then
        match env.setNodeFallbackBlock fb with
        | none => st2
        | some body =>
          { st2 with broadcasts := st2.broadcasts ++
              [(env.messageTypeNode :: env.instructionFallbackBlock :: body,
                fallbackClusterSize env.numForwardedBlockReceiversPerShard
                  env.numDSElection)] }
      else st2
    { st3 with
      processedTransactions :=
        st3.processedTransactions.filter (fun e => e != env.currentEpochNum)
      createdTransactions := []
      microblockConsensusBuffer := []
      accountTempCleared := true
      powStarted := true }
  else
    { st2 with consensusID := 0, consensusLeaderID := 0 }

/-- The commit step (lines 263-344): append the BlockLink record at index
`GetLatestIndex() + 1` carrying the fallback DS-epoch number, the `FB` tag
and the block hash; then serialize the block together with the sharding
structure — on serialization failure only log and skip storage, on a failed
`PutFallbackBlock` return false (with the BlockLink already appended) — and
otherwise run the post-storage effects and return true. -/
def fallbackCommit (env : ProcEnv) (st : NodeState)
    (fb : FallbackBlock) : Bool × NodeState :=
  let st1 : NodeState := { st with
    blocklinks := st.blocklinks ++
      [⟨st.latestIndex + 1, fb.header.fallbackDSEpochNo, BlockType.FB,
        fb.blockHash⟩]
    latestIndex := st.latestIndex + 1 }
  match env.serializeFBWithShards fb env.shards with
  | none => (true, fallbackPostStore env st1 fb)
  | some dst =>
    if env.putFallbackBlock fb.blockHash dst = true then
      (true, fallbackPostStore env
        { st1 with storage := st1.storage ++ [(fb.blockHash, dst)] } fb)
    else
      (false, st1)

/-- The full stage trace of an accepted block: every validation stage in
source order, each annotated with the shared locks held by the validating
thread while that stage is evaluated (the shard-table lock is acquired
before the shard-existence check and held through commit). -/
def fullTrace : List (Stage × List LockId) :=
  [(Stage.ready, []), (Stage.decode, []), (Stage.version, []),
   (Stage.freshness, []), (Stage.hashIntegrity, []), (Stage.timestamp, []),
   (Stage.shardExist, [LockId.shardsLock]),
   (Stage.committeeHash, [LockId.shardsLock]),
   (Stage.leaderId, [LockId.shardsLock]),
   (Stage.stateRoot, [LockId.shardsLock]),
   (Stage.cosig, [LockId.shardsLock]),
   (Stage.commit, [LockId.shardsLock])]

/-- The canonical stage order of the validation pipeline. -/
def canonicalStages : List Stage :=
  [Stage.ready, Stage.decode, Stage.version, Stage.freshness,
   Stage.hashIntegrity, Stage.timestamp, Stage.shardExist,
   Stage.committeeHash, Stage.leaderId, Stage.stateRoot, Stage.cosig,
   Stage.commit]

/-- Embedding of `Node::ProcessFallbackBlock` (lines 117-345).  Returns the
C++ return value, the updated node state, and the instrumentation trace of
evaluated stages with the locks held at each.  Each check rejects exactly
under the source's condition; the reject value is `(false, st, trace)` with
the state untouched. -/
def ProcessFallbackBlock (env : ProcEnv) (st : NodeState) :
    Bool × NodeState × List (Stage × List LockId) :=
  if env.checkStateOK = false then
    (false, st, [(Stage.ready, [])])
  else
    match env.decode with
    | none =>
      (false, st, [(Stage.ready, []), (Stage.decode, [])])
    | some fb =>
      if fb.header.version ≠ env.fallbackBlockVersion then
        (false, st, [(Stage.ready, []), (Stage.decode, []),
          (Stage.version, [])])
      else if env.isLatest fb.header.fallbackDSEpochNo
          fb.header.fallbackEpochNo = false then
        (false, st, [(Stage.ready, []), (Stage.decode, []),
          (Stage.version, []), (Stage.freshness, [])])
      else if env.myHash fb.header ≠ fb.blockHash then
        (false, st, [(Stage.ready, []), (Stage.decode, []),
          (Stage.version, []), (Stage.freshness, []),
          (Stage.hashIntegrity, [])])
      else if env.verifyTimestamp fb.header.timestamp
          (env.consensusObjectTimeout + env.fallbackIntervalWaiting +
            env.fallbackCheckInterval + env.fallbackExtraTime) = false then
        (false, st, [(Stage.ready, []), (Stage.decode, []),
          (Stage.version, []), (Stage.freshness, []),
          (Stage.hashIntegrity, []), (Stage.timestamp, [])])
      else if fb.header.shardId ≥ env.shards.length then
        (false, st, [(Stage.ready, []), (Stage.decode, []),
          (Stage.version, []), (Stage.freshness, []),
          (Stage.hashIntegrity, []), (Stage.timestamp, []),
          (Stage.shardExist, [LockId.shardsLock])])
      else
        match env.shardHash (env.shards.getD fb.header.shardId []) with
        | none =>
          (false, st, [(Stage.ready, []), (Stage.decode, []),
            (Stage.version, []), (Stage.freshness, []),
            (Stage.hashIntegrity, []), (Stage.timestamp, []),
            (Stage.shardExist, [LockId.shardsLock]),
            (Stage.committeeHash, [LockId.shardsLock])])
        | some committeeHash =>
          if committeeHash ≠ fb.header.committeeHash then
            (false, st, [(Stage.ready, []), (Stage.decode, []),
              (Stage.version, []), (Stage.freshness, []),
              (Stage.hashIntegrity, []), (Stage.timestamp, []),
              (Stage.shardExist, [LockId.shardsLock]),
              (Stage.committeeHash, [LockId.shardsLock])])
          else if fb.header.leaderConsensusId
              ≥ (env.shards.getD fb.header.shardId []).length then
            (false, st, [(Stage.ready, []), (Stage.decode, []),
              (Stage.version, []), (Stage.freshness, []),
              (Stage.hashIntegrity, []), (Stage.timestamp, []),
              (Stage.shardExist, [LockId.shardsLock]),
              (Stage.committeeHash, [LockId.shardsLock]),
              (Stage.leaderId, [LockId.shardsLock])])
          else if (env.shards.getD fb.header.shardId []).any
              (fun m => m.pubkey == fb.header.leaderPubKey &&
                m.peer == fb.header.leaderNetworkInfo) = false then
            (false, st, [(Stage.ready, []), (Stage.decode, []),
              (Stage.version, []), (Stage.freshness, []),
              (Stage.hashIntegrity, []), (Stage.timestamp, []),
              (Stage.shardExist, [LockId.shardsLock]),
              (Stage.committeeHash, [LockId.shardsLock]),
              (Stage.leaderId, [LockId.shardsLock])])
          else if env.stateRootHash ≠ fb.header.stateRootHash then
            (false, st, [(Stage.ready, []), (Stage.decode, []),
              (Stage.version, []), (Stage.freshness, []),
              (Stage.hashIntegrity, []), (Stage.timestamp, []),
              (Stage.shardExist, [LockId.shardsLock]),
              (Stage.committeeHash, [LockId.shardsLock]),
              (Stage.leaderId, [LockId.shardsLock]),
              (Stage.stateRoot, [LockId.shardsLock])])
          else if VerifyFallbackBlockCoSignature env.crypto env.shards fb
              = false then
            (false, st, [(Stage.ready, []), (Stage.decode, []),
              (Stage.version, []), (Stage.freshness, []),
              (Stage.hashIntegrity, []), (Stage.timestamp, []),
              (Stage.shardExist, [LockId.shardsLock]),
              (Stage.committeeHash, [LockId.shardsLock]),
              (Stage.leaderId, [LockId.shardsLock]),
              (Stage.stateRoot, [LockId.shardsLock]),
              (Stage.cosig, [LockId.shardsLock])])
          else
            ((fallbackCommit env st fb).1, (fallbackCommit env st fb).2,
              fullTrace)

/-- The conjunction of every check of `ProcessFallbackBlock` before the
co-signature check, in source form. -/
def checksBeforeCosig (env : ProcEnv) : Bool :=
  env.checkStateOK &&
    match env.decode with
    | none => false
    | some fb =>
      decide (fb.header.version = env.fallbackBlockVersion) &&
      env.isLatest fb.header.fallbackDSEpochNo fb.header.fallbackEpochNo &&
      decide (env.myHash fb.header = fb.blockHash) &&
      env.verifyTimestamp fb.header.timestamp
        (env.consensusObjectTimeout + env.fallbackIntervalWaiting +
          env.fallbackCheckInterval + env.fallbackExtraTime) &&
      decide (fb.header.shardId < env.shards.length) &&
      (match env.shardHash (env.shards.getD fb.header.shardId []) with
       | none => false
       | some committeeHash =>
         decide (committeeHash = fb.header.committeeHash)) &&
      decide (fb.header.leaderConsensusId
        < (env.shards.getD fb.header.shardId []).length) &&
      (env.shards.getD fb.header.shardId []).any
        (fun m => m.pubkey == fb.header.leaderPubKey &&
          m.peer == fb.header.leaderNetworkInfo) &&
      decide (env.stateRootHash = fb.header.stateRootHash)

/-- The conjunction of every check of `ProcessFallbackBlock`, the
co-signature check included. -/
def allChecksPass (env : ProcEnv) : Bool :=
  checksBeforeCosig env &&
    match env.decode with
    | none => false
    | some fb => VerifyFallbackBlockCoSignature env.crypto env.shards fb

/-- Exhaustive description of `ProcessFallbackBlock`: either a pre-cosig
check fails (result false, state untouched, trace a proper prefix ending
before the cosig stage), or only the cosig check fails (trace ends at the
cosig stage), or every check passes and the run is the commit step with the
full trace. -/
theorem process_master (env : ProcEnv) (st : NodeState) :
    (checksBeforeCosig env = false ∧
      (ProcessFallbackBlock env st).1 = false ∧
      (ProcessFallbackBlock env st).2.1 = st ∧
      ∃ n, n ≤ 10 ∧ (ProcessFallbackBlock env st).2.2 = fullTrace.take n)
    ∨ (checksBeforeCosig env = true ∧ allChecksPass env = false ∧
      (ProcessFallbackBlock env st).1 = false ∧
      (ProcessFallbackBlock env st).2.1 = st ∧
      (ProcessFallbackBlock env st).2.2 = fullTrace.take 11)
    ∨ (∃ fb, env.decode = some fb ∧ allChecksPass env = true ∧
      ProcessFallbackBlock env st =
        ((fallbackCommit env st fb).1, (fallbackCommit env st fb).2,
          fullTrace)) := by
  unfold ProcessFallbackBlock
  by_cases h1 : env.checkStateOK = false
  · rw [if_pos h1]
    refine Or.inl ⟨?_, rfl, rfl, 1, by omega, rfl⟩
    unfold checksBeforeCosig
    rw [h1, Bool.false_and]
  · rw [if_neg h1]
    replace h1 : env.checkStateOK = true := by
      revert h1; cases env.checkStateOK <;> simp
    rcases hdec : env.decode with _ | fb
    · simp only [hdec]
      refine Or.inl ⟨?_, by trivial, by trivial, 2, by omega, by trivial⟩
      unfold checksBeforeCosig
      simp only [hdec, Bool.and_false]
    · simp only [hdec]
      by_cases h2 : fb.header.version ≠ env.fallbackBlockVersion
      · rw [if_pos h2]
        refine Or.inl ⟨?_, rfl, rfl, 3, by omega, rfl⟩
        unfold checksBeforeCosig
        simp only [hdec]
        rw [decide_eq_false h2]
        simp only [Bool.false_and, Bool.and_false]
      · rw [if_neg h2]
        replace h2 : fb.header.version = env.fallbackBlockVersion :=
          not_not.mp h2
        by_cases h3 : env.isLatest fb.header.fallbackDSEpochNo
            fb.header.fallbackEpochNo = false
        · rw [if_pos h3]
          refine Or.inl ⟨?_, rfl, rfl, 4, by omega, rfl⟩
          unfold checksBeforeCosig
          simp only [hdec]
          rw [h3]
          simp only [Bool.false_and, Bool.and_false]
        · rw [if_neg h3]
          replace h3 : env.isLatest fb.header.fallbackDSEpochNo
              fb.header.fallbackEpochNo = true := by
            revert h3
            cases env.isLatest fb.header.fallbackDSEpochNo
              fb.header.fallbackEpochNo <;> simp
          by_cases h4 : env.myHash fb.header ≠ fb.blockHash
          · rw [if_pos h4]
            refine Or.inl ⟨?_, rfl, rfl, 5, by omega, rfl⟩
            unfold checksBeforeCosig
            simp only [hdec]
            rw [decide_eq_false h4]
            simp only [Bool.false_and, Bool.and_false]
          · rw [if_neg h4]
            replace h4 : env.myHash fb.header = fb.blockHash := not_not.mp h4
            by_cases h5 : env.verifyTimestamp fb.header.timestamp
                (env.consensusObjectTimeout + env.fallbackIntervalWaiting +
                  env.fallbackCheckInterval + env.fallbackExtraTime) = false
            · rw [if_pos h5]
              refine Or.inl ⟨?_, rfl, rfl, 6, by omega, rfl⟩
              unfold checksBeforeCosig
              simp only [hdec]
              rw [h5]
              simp only [Bool.false_and, Bool.and_false]
            · rw [if_neg h5]
              replace h5 : env.verifyTimestamp fb.header.timestamp
                  (env.consensusObjectTimeout + env.fallbackIntervalWaiting +
                    env.fallbackCheckInterval + env.fallbackExtraTime)
                  = true := by
                revert h5
                cases env.verifyTimestamp fb.header.timestamp
                  (env.consensusObjectTimeout + env.fallbackIntervalWaiting +
                    env.fallbackCheckInterval + env.fallbackExtraTime) <;>
                  simp
              by_cases h6 : fb.header.shardId ≥ env.shards.length
              · rw [if_pos h6]
                refine Or.inl ⟨?_, rfl, rfl, 7, by omega, rfl⟩
                unfold checksBeforeCosig
                simp only [hdec]
                rw [decide_eq_false (Nat.not_lt.mpr h6)]
                simp only [Bool.false_and, Bool.and_false]
              · rw [if_neg h6]
                replace h6 : fb.header.shardId < env.shards.length :=
                  Nat.not_le.mp h6
                rcases hsh : env.shardHash
                    (env.shards.getD fb.header.shardId []) with _ | ch
                · simp only [hsh]
                  refine Or.inl ⟨?_, by trivial, by trivial, 8, by omega,
                    by trivial⟩
                  unfold checksBeforeCosig
                  simp only [hdec, hsh]
                  simp only [Bool.false_and, Bool.and_false]
                · simp only [hsh]
                  by_cases h7 : ch ≠ fb.header.committeeHash
                  · rw [if_pos h7]
                    refine Or.inl ⟨?_, rfl, rfl, 8, by omega, rfl⟩
                    unfold checksBeforeCosig
                    simp only [hdec, hsh]
                    rw [decide_eq_false h7]
                    simp only [Bool.false_and, Bool.and_false]
                  · rw [if_neg h7]
                    replace h7 : ch = fb.header.committeeHash := not_not.mp h7
                    by_cases h8 : fb.header.leaderConsensusId
                        ≥ (env.shards.getD fb.header.shardId []).length
                    · rw [if_pos h8]
                      refine Or.inl ⟨?_, rfl, rfl, 9, by omega, rfl⟩
                      unfold checksBeforeCosig
                      simp only [hdec, hsh]
                      rw [decide_eq_false (Nat.not_lt.mpr h8)]
                      simp only [Bool.false_and, Bool.and_false]
                    · rw [if_neg h8]
                      replace h8 : fb.header.leaderConsensusId
                          < (env.shards.getD fb.header.shardId []).length :=
                        Nat.not_le.mp h8
                      by_cases h9 : (env.shards.getD fb.header.shardId []).any
                          (fun m => m.pubkey == fb.header.leaderPubKey &&
                            m.peer == fb.header.leaderNetworkInfo) = false
                      · rw [if_pos h9]
                        refine Or.inl ⟨?_, rfl, rfl, 9, by omega, rfl⟩
                        unfold checksBeforeCosig
                        simp only [hdec, hsh]
                        rw [h9]
                        simp only [Bool.false_and, Bool.and_false]
                      · rw [if_neg h9]
                        replace h9 : (env.shards.getD fb.header.shardId
                            []).any
                            (fun m => m.pubkey == fb.header.leaderPubKey &&
                              m.peer == fb.header.leaderNetworkInfo)
                            = true := by
                          revert h9
                          cases (env.shards.getD fb.header.shardId []).any
                            (fun m => m.pubkey == fb.header.leaderPubKey &&
                              m.peer == fb.header.leaderNetworkInfo) <;> simp
                        by_cases h10 : env.stateRootHash
                            ≠ fb.header.stateRootHash
                        · rw [if_pos h10]
                          refine Or.inl ⟨?_, rfl, rfl, 10, by omega, rfl⟩
                          unfold checksBeforeCosig
                          simp only [hdec, hsh]
                          rw [decide_eq_false h10]
                          simp only [Bool.false_and, Bool.and_false]
                        · rw [if_neg h10]
                          replace h10 : env.stateRootHash
                              = fb.header.stateRootHash := not_not.mp h10
                          have hcb : checksBeforeCosig env = true := by
                            unfold checksBeforeCosig
                            simp only [hdec, hsh]
                            rw [h1, decide_eq_true h2, h3,
                              decide_eq_true h4, h5, decide_eq_true h6,
                              decide_eq_true h7, decide_eq_true h8, h9,
                              decide_eq_true h10]
                            rfl
                          by_cases h11 : VerifyFallbackBlockCoSignature
                              env.crypto env.shards fb = false
                          · rw [if_pos h11]
                            refine Or.inr (Or.inl ⟨hcb, ?_, rfl, rfl, rfl⟩)
                            unfold allChecksPass
                            simp only [hdec]
                            rw [h11, Bool.and_false]
                          · rw [if_neg h11]
                            replace h11 : VerifyFallbackBlockCoSignature
                                env.crypto env.shards fb = true := by
                              revert h11
                              cases VerifyFallbackBlockCoSignature
                                env.crypto env.shards fb <;> simp
                            refine Or.inr (Or.inr ⟨fb, by trivial, ?_,
                              by trivial⟩)
                            unfold allChecksPass
                            simp only [hdec]
                            rw [hcb, h11]
                            rfl

/-- The post-storage effects never touch the BlockLink chain. -/
theorem fallbackPostStore_blocklinks (env : ProcEnv) (st : NodeState)
    (fb : FallbackBlock) :
    (fallbackPostStore env st fb).blocklinks = st.blocklinks := by
  unfold fallbackPostStore
  repeat' split
  all_goals rfl

/-- The post-storage effects never touch the latest BlockLink index. -/
theorem fallbackPostStore_latestIndex (env : ProcEnv) (st : NodeState)
    (fb : FallbackBlock) :
    (fallbackPostStore env st fb).latestIndex = st.latestIndex := by
  unfold fallbackPostStore
  repeat' split
  all_goals rfl

/-- The post-storage effects never touch block storage. -/
theorem fallbackPostStore_storage (env : ProcEnv) (st : NodeState)
    (fb : FallbackBlock) :
    (fallbackPostStore env st fb).storage = st.storage := by
  unfold fallbackPostStore
  repeat' split
  all_goals rfl

/-- The post-storage effects replace the DS committee with the successor
committee computed by `UpdateDSCommitteeAfterFallback`. -/
theorem fallbackPostStore_dsCommittee (env : ProcEnv) (st : NodeState)
    (fb : FallbackBlock) :
    (fallbackPostStore env st fb).dsCommittee =
      UpdateDSCommitteeAfterFallback fb.header.shardId fb.header.leaderPubKey
        fb.header.leaderNetworkInfo env.shards := by
  unfold fallbackPostStore
  repeat' split
  all_goals rfl

/-- Every branch of the commit step leaves the BlockLink chain equal to the
old chain with exactly the one new fallback record appended, and the latest
index incremented by one. -/
theorem fallbackCommit_blocklinks (env : ProcEnv) (st : NodeState)
    (fb : FallbackBlock) :
    (fallbackCommit env st fb).2.blocklinks =
      st.blocklinks ++ [⟨st.latestIndex + 1, fb.header.fallbackDSEpochNo,
        BlockType.FB, fb.blockHash⟩] ∧
    (fallbackCommit env st fb).2.latestIndex = st.latestIndex + 1 := by
  unfold fallbackCommit
  repeat' split
  all_goals constructor
  all_goals
    simp only [fallbackPostStore_blocklinks, fallbackPostStore_latestIndex]

/-- C6: the pipeline evaluates its checks in the fixed canonical order and
fail-fast — the emitted stage trace is always a prefix of the canonical
order, the co-signature stage is evaluated exactly when every earlier check
passed, and the commit stage is reached exactly when every check (the
co-signature included) passed. -/
theorem C6_pipeline_order_failfast (env : ProcEnv) (st : NodeState) :
    ((ProcessFallbackBlock env st).2.2.map Prod.fst) <+: canonicalStages ∧
    (Stage.cosig ∈ (ProcessFallbackBlock env st).2.2.map Prod.fst ↔
      checksBeforeCosig env = true) ∧
    (Stage.commit ∈ (ProcessFallbackBlock env st).2.2.map Prod.fst ↔
      allChecksPass env = true) := by
  have hstages : fullTrace.map Prod.fst = canonicalStages := by decide
  rcases process_master env st with
    ⟨hcb, hres, hst, n, hn, htr⟩ | ⟨hcb, hacp, hres, hst, htr⟩ |
    ⟨fb, hdec, hacp, heq⟩
  · have hacp : allChecksPass env = false := by
      unfold allChecksPass
      rw [hcb, Bool.false_and]
    rw [htr]
    refine ⟨?_, ?_, ?_⟩
    · rw [List.map_take, hstages]
      exact ⟨canonicalStages.drop n, List.take_append_drop n canonicalStages⟩
    · constructor
      · intro hmem
        exfalso
        interval_cases n <;> revert hmem <;> decide
      · intro hcb2
        rw [hcb] at hcb2
        exact absurd hcb2 (by decide)
    · constructor
      · intro hmem
        exfalso
        interval_cases n <;> revert hmem <;> decide
      · intro hacp2
        rw [hacp] at hacp2
        exact absurd hacp2 (by decide)
  · rw [htr]
    refine ⟨?_, ?_, ?_⟩
    · rw [List.map_take, hstages]
      exact ⟨canonicalStages.drop 11,
        List.take_append_drop 11 canonicalStages⟩
    · exact iff_of_true (by decide) hcb
    · refine iff_of_false (by decide) ?_
      intro hacp2
      rw [hacp] at hacp2
      exact absurd hacp2 (by decide)
  · have hcb : checksBeforeCosig env = true := by
      unfold allChecksPass at hacp
      exact (Bool.and_eq_true _ _ |>.mp hacp).1
    rw [heq]
    dsimp only
    refine ⟨?_, ?_, ?_⟩
    · rw [hstages]
    · exact iff_of_true (by decide) hcb
    · exact iff_of_true (by decide) hacp

/-- C7: for every accepted fallback block (result true), exactly one new
BlockLink record is appended: the new chain is the old chain plus one
record whose index is the previous latest index plus one, carrying the
block's fallback DS-epoch number, the `FB` tag and the block hash, and the
latest index advances to it.  (The BlockLink chain itself is modelled from
spec section 4.3; its class is outside the given sources.) -/
theorem C7_blocklink_append (env : ProcEnv) (st : NodeState)
    (fb : FallbackBlock) (hdec : env.decode = some fb)
    (hres : (ProcessFallbackBlock env st).1 = true) :
    (ProcessFallbackBlock env st).2.1.blocklinks =
      st.blocklinks ++ [⟨st.latestIndex + 1, fb.header.fallbackDSEpochNo,
        BlockType.FB, fb.blockHash⟩] ∧
    (ProcessFallbackBlock env st).2.1.latestIndex = st.latestIndex + 1 := by
  rcases process_master env st with
    ⟨_, hf, _, _⟩ | ⟨_, _, hf, _, _⟩ | ⟨fb2, hdec2, _, heq⟩
  · rw [hf] at hres
    exact absurd hres (by decide)
  · rw [hf] at hres
    exact absurd hres (by decide)
  · rw [hdec] at hdec2
    injection hdec2 with hfb
    subst hfb
    rw [heq]
    exact fallbackCommit_blocklinks env st fb

/-- C2 amended: when `ProcessFallbackBlock` returns false, either the node
state is completely untouched (every failed check up to and including the
co-signature check), or — only when the block has passed every check, been
serialized, and the storage put itself failed — the function returns false
with the new BlockLink record already appended and everything else
untouched. -/
theorem C2_reject_mutation (env : ProcEnv) (st : NodeState)
    (hres : (ProcessFallbackBlock env st).1 = false) :
    (ProcessFallbackBlock env st).2.1 = st ∨
    ∃ fb dst, env.decode = some fb ∧
      env.serializeFBWithShards fb env.shards = some dst ∧
      env.putFallbackBlock fb.blockHash dst = false ∧
      (ProcessFallbackBlock env st).2.1 =
        { st with
          blocklinks := st.blocklinks ++ [⟨st.latestIndex + 1,
            fb.header.fallbackDSEpochNo, BlockType.FB, fb.blockHash⟩]
          latestIndex := st.latestIndex + 1 } := by
  rcases process_master env st with
    ⟨_, _, hst, _⟩ | ⟨_, _, _, hst, _⟩ | ⟨fb, hdec, _, heq⟩
  · exact Or.inl hst
  · exact Or.inl hst
  · rw [heq] at hres
    dsimp only at hres
    unfold fallbackCommit at hres
    rcases hser : env.serializeFBWithShards fb env.shards with _ | dst
    · rw [hser] at hres
      dsimp only at hres
      exact absurd hres (by decide)
    · rw [hser] at hres
      dsimp only at hres
      by_cases hput : env.putFallbackBlock fb.blockHash dst = true
      · rw [if_pos hput] at hres
        dsimp only at hres
        exact absurd hres (by decide)
      · replace hput : env.putFallbackBlock fb.blockHash dst = false := by
          revert hput
          cases env.putFallbackBlock fb.blockHash dst <;> simp
        refine Or.inr ⟨fb, dst, hdec, hser, hput, ?_⟩
        rw [heq]
        dsimp only
        unfold fallbackCommit
        rw [hser]
        dsimp only
        rw [if_neg (by rw [hput]; exact Bool.false_ne_true)]

/-- C9: if serializing the block together with the sharding structure fails
during commit, the block is still fully accepted — the function returns
true with block storage untouched, while the DS committee has been replaced
and the BlockLink record appended. -/
theorem C9_serialize_failure_still_accepts (env : ProcEnv) (st : NodeState)
    (fb : FallbackBlock) (hdec : env.decode = some fb)
    (hchecks : allChecksPass env = true)
    (hser : env.serializeFBWithShards fb env.shards = none) :
    (ProcessFallbackBlock env st).1 = true ∧
    (ProcessFallbackBlock env st).2.1.storage = st.storage ∧
    (ProcessFallbackBlock env st).2.1.dsCommittee =
      UpdateDSCommitteeAfterFallback fb.header.shardId
        fb.header.leaderPubKey fb.header.leaderNetworkInfo env.shards ∧
    (ProcessFallbackBlock env st).2.1.blocklinks =
      st.blocklinks ++ [⟨st.latestIndex + 1, fb.header.fallbackDSEpochNo,
        BlockType.FB, fb.blockHash⟩] := by
  rcases process_master env st with
    ⟨hcb, _⟩ | ⟨_, hacp, _⟩ | ⟨fb2, hdec2, _, heq⟩
  · exfalso
    unfold allChecksPass at hchecks
    rw [hcb, Bool.false_and] at hchecks
    exact absurd hchecks (by decide)
  · rw [hacp] at hchecks
    exact absurd hchecks (by decide)
  · rw [hdec] at hdec2
    injection hdec2 with hfb
    subst hfb
    rw [heq]
    dsimp only
    unfold fallbackCommit
    rw [hser]
    dsimp only
    refine ⟨rfl, ?_, ?_, ?_⟩
    · rw [fallbackPostStore_storage]
    · rw [fallbackPostStore_dsCommittee]
    · rw [fallbackPostStore_blocklinks]

/-- C8 amended: whenever the co-signature check is evaluated, the set of
shared locks held by the validating thread is exactly the shard-table lock
— in particular the DS-committee lock is not held, but the shard-table lock
is. -/
theorem C8_cosig_lock_set (env : ProcEnv) (st : NodeState)
    (l : List LockId)
    (h : (Stage.cosig, l) ∈ (ProcessFallbackBlock env st).2.2) :
    l = [LockId.shardsLock] := by
  rcases process_master env st with
    ⟨_, _, _, n, hn, htr⟩ | ⟨_, _, _, _, htr⟩ | ⟨fb, _, _, heq⟩
  · rw [htr] at h
    interval_cases n <;> simp [fullTrace, List.take] at h
  · rw [htr] at h
    simp [fullTrace, List.take] at h
    exact h
  · rw [heq] at h
    dsimp only at h
    simp [fullTrace] at h
    exact h

/-- An empty initial node state for the concrete runs. -/
def stEmpty : NodeState :=
  { blocklinks := [], latestIndex := 0, dsCommittee := [], storage := []
    fallbackTimerPulsed := false, diskFlushScheduled := false
    broadcasts := [], processedTransactions := [77]
    createdTransactions := [1], microblockConsensusBuffer := [2]
    accountTempCleared := false, powStarted := false
    consensusID := 9, consensusLeaderID := 9 }

/-- Environment on which every check of `ProcessFallbackBlock` passes and
the commit succeeds. -/
def envAccept : ProcEnv :=
  { checkStateOK := true
    decode := some fbTwo
    fallbackBlockVersion := 1
    isLatest := fun _ _ => true
    myHash := fun _ => 42
    verifyTimestamp := fun _ _ => true
    consensusObjectTimeout := 1, fallbackIntervalWaiting := 1
    fallbackCheckInterval := 1, fallbackExtraTime := 1
    shards := [shardTwo]
    shardHash := fun _ => some 4
    stateRootHash := 9
    crypto := cryptoThresholdTwo
    serializeFBWithShards := fun _ _ => some [8, 8]
    putFallbackBlock := fun _ _ => true
    lookupNodeMode := false
    broadcastTreebasedClusterMode := true
    setNodeFallbackBlock := fun _ => some [5]
    messageTypeNode := 2, instructionFallbackBlock := 3
    currentEpochNum := 77
    numForwardedBlockReceiversPerShard := 10, numDSElection := 4 }

/-- Same environment with a failing storage put. -/
def envPutFail : ProcEnv :=
  { envAccept with putFallbackBlock := fun _ _ => false }

/-- Same environment with a failing block-with-shards serialization. -/
def envSerFail : ProcEnv :=
  { envAccept with serializeFBWithShards := fun _ _ => none }

/-- Same environment with the node not ready (readiness check fails). -/
def envNotReady : ProcEnv :=
  { envAccept with checkStateOK := false }

/-- C2 counterexample: when every check passes but the storage put fails,
`ProcessFallbackBlock` returns false, yet the BlockLink chain has been
mutated — the new record is already appended — refuting "zero mutation on
every false return (including a failed persistence call)". -/
theorem C2_counterexample :
    (ProcessFallbackBlock envPutFail stEmpty).1 = false ∧
    (ProcessFallbackBlock envPutFail stEmpty).2.1.blocklinks
      ≠ stEmpty.blocklinks ∧
    (ProcessFallbackBlock envPutFail stEmpty).2.1.blocklinks
      = [⟨1, 5, BlockType.FB, 42⟩] := by
  decide

/-- Witness for `C2_reject_mutation` at a concrete rejected input (node not
ready): the state is untouched. -/
theorem C2_reject_mutation_witness :
    (ProcessFallbackBlock envNotReady stEmpty).2.1 = stEmpty ∨
    ∃ fb dst, envNotReady.decode = some fb ∧
      envNotReady.serializeFBWithShards fb envNotReady.shards = some dst ∧
      envNotReady.putFallbackBlock fb.blockHash dst = false ∧
      (ProcessFallbackBlock envNotReady stEmpty).2.1 =
        { stEmpty with
          blocklinks := stEmpty.blocklinks ++ [⟨stEmpty.latestIndex + 1,
            fb.header.fallbackDSEpochNo, BlockType.FB, fb.blockHash⟩]
          latestIndex := stEmpty.latestIndex + 1 } :=
  C2_reject_mutation envNotReady stEmpty (by decide)

/-- Witness for `C7_blocklink_append` at the accepting concrete run. -/
theorem C7_blocklink_append_witness :
    (ProcessFallbackBlock envAccept stEmpty).2.1.blocklinks =
      stEmpty.blocklinks ++ [⟨stEmpty.latestIndex + 1,
        fbTwo.header.fallbackDSEpochNo, BlockType.FB, fbTwo.blockHash⟩] ∧
    (ProcessFallbackBlock envAccept stEmpty).2.1.latestIndex =
      stEmpty.latestIndex + 1 :=
  C7_blocklink_append envAccept stEmpty fbTwo (by decide) (by decide)

/-- C8 counterexample: in the accepting concrete run the co-signature check
is evaluated while the thread holds the shard-table lock — a shared lock —
refuting "key aggregation and co-signature verification execute while no
shared lock is held". -/
theorem C8_counterexample :
    (Stage.cosig, [LockId.shardsLock])
      ∈ (ProcessFallbackBlock envAccept stEmpty).2.2 ∧
    ([LockId.shardsLock] : List LockId) ≠ [] := by
  decide

/-- Witness for `C8_cosig_lock_set` at the accepting concrete run. -/
theorem C8_cosig_lock_set_witness :
    ([LockId.shardsLock] : List LockId) = [LockId.shardsLock] :=
  C8_cosig_lock_set envAccept stEmpty [LockId.shardsLock] (by decide)

/-- Witness for `C9_serialize_failure_still_accepts` at the concrete run
with failing serialization. -/
theorem C9_serialize_failure_still_accepts_witness :
    (ProcessFallbackBlock envSerFail stEmpty).1 = true ∧
    (ProcessFallbackBlock envSerFail stEmpty).2.1.storage =
      stEmpty.storage ∧
    (ProcessFallbackBlock envSerFail stEmpty).2.1.dsCommittee =
      UpdateDSCommitteeAfterFallback fbTwo.header.shardId
        fbTwo.header.leaderPubKey fbTwo.header.leaderNetworkInfo
        envSerFail.shards ∧
    (ProcessFallbackBlock envSerFail stEmpty).2.1.blocklinks =
      stEmpty.blocklinks ++ [⟨stEmpty.latestIndex + 1,
        fbTwo.header.fallbackDSEpochNo, BlockType.FB, fbTwo.blockHash⟩] :=
  C9_serialize_failure_still_accepts envSerFail stEmpty fbTwo
    (by decide) (by decide) (by decide)

/-- C10 counterexample: with `NUM_DS_ELECTION` configured to the largest
`unsigned int` value 4294967295 and 5 forwarded receivers, the adjustment
`NUM_DS_ELECTION + 1` wraps to 0, so the cluster size used is 0 — not
strictly greater than `NUM_DS_ELECTION`, refuting "strictly greater
regardless of the configured value". -/
theorem C10_counterexample :
    fallbackClusterSize 5 4294967295 = 0 ∧
    ¬ 4294967295 < fallbackClusterSize 5 4294967295 := by
  decide

/-- C10 amended: for in-range configuration values (both below 2^32, and
`NUM_DS_ELECTION + 1` not wrapping), the cluster size used is the
configured receivers count when it exceeds `NUM_DS_ELECTION` and
`NUM_DS_ELECTION + 1` otherwise, and it is strictly greater than
`NUM_DS_ELECTION`. -/
theorem C10_cluster_size (f n : Nat) (hf : f < 4294967296)
    (hn : n + 1 < 4294967296) :
    (n < f → fallbackClusterSize f n = f) ∧
    (f ≤ n → fallbackClusterSize f n = n + 1) ∧
    n < fallbackClusterSize f n := by
  unfold fallbackClusterSize
  rw [Nat.mod_eq_of_lt hf, Nat.mod_eq_of_lt (by omega : n < 4294967296),
    Nat.mod_eq_of_lt hn]
  by_cases h : f ≤ n
  · rw [if_pos h]
    exact ⟨fun hlt => absurd hlt (by omega), fun _ => rfl, by omega⟩
  · rw [if_neg h]
    exact ⟨fun _ => rfl, fun hle => absurd hle h, by omega⟩

/-- Witness for `C10_cluster_size` at a concrete in-range configuration. -/
theorem C10_cluster_size_witness :
    (4 < 10 → fallbackClusterSize 10 4 = 10) ∧
    (10 ≤ 4 → fallbackClusterSize 10 4 = 4 + 1) ∧
    4 < fallbackClusterSize 10 4 :=
  C10_cluster_size 10 4 (by decide) (by decide)

end Zilliqa
